import Mathlib

/-!
Shallow embedding of the WasteTracker application core:
the Home page state (bulk fetch, live insert stream, click selection),
the upload flow (file validation, location, storage upload, db insert),
the map overlay click resolution and the report detail modal.
Each definition is translated from the corresponding source function.
-/

namespace WasteApp

/-- Modelled from the spec: the `WasteReport` entity of `lib/types` is not
among the provided sources; its attributes follow spec §3
(`id`, `latitude`, `longitude`, `photo_url`, `created_at`). Coordinates are
rationals, the timestamp a natural number. -/
structure WasteReport where
  id : String
  latitude : ℚ
  longitude : ℚ
  photo_url : String
  created_at : ℕ
  deriving Repr, DecidableEq

/-- Modelled from the spec: `CreateWasteReport` of `lib/types` (spec §3,
transient input object `\x7b latitude, longitude, photo_url \x7d`). -/
structure CreateWasteReport where
  latitude : ℚ
  longitude : ℚ
  photo_url : String
  deriving Repr, DecidableEq

/-- A selected file as the upload component sees it: `name`, MIME `type`,
`size` in bytes. -/
structure JSFile where
  name : String
  type : String
  size : ℕ
  deriving Repr, DecidableEq

/-- A geolocation result, as returned by `getCurrentLocation`. -/
structure GeoLocation where
  latitude : ℚ
  longitude : ℚ
  deriving Repr, DecidableEq

/-- External calls the upload component can make; used to record which
side effects an invocation performs, in order. -/
inductive Action where
  | createObjectUrl (file : JSFile)
  | getLocation
  | storageUpload (path : String)
  | getPublicUrl (path : String)
  | dbInsert (r : CreateWasteReport)
  | notifyParent
  deriving Repr, DecidableEq

/-- Whether an action is a network call (storage, public-url resolution, or
database insert). `createObjectUrl` and `notifyParent` are local. -/
def Action.isNetwork : Action → Bool
  | .storageUpload _ => true
  | .getPublicUrl _ => true
  | .dbInsert _ => true
  | _ => false

/-- Whether an action is a location acquisition. -/
def Action.isLocation : Action → Bool
  | .getLocation => true
  | _ => false

/-- The `UploadComponent` state hooks: `isUploading`, `uploadStatus`,
`selectedFile`, `previewUrl`. -/
structure UploadState where
  isUploading : Bool
  uploadStatus : String
  selectedFile : Option JSFile
  previewUrl : String
  deriving Repr, DecidableEq

/-- Initial `UploadComponent` state. -/
def initialUploadState : UploadState :=
  { isUploading := false, uploadStatus := "", selectedFile := none, previewUrl := "" }

/-- Models `file.type.startsWith('image/')` from `handleFileSelect`. -/
def mimeIsImage (t : String) : Bool :=
  "image/".data.isPrefixOf t.data

/-- Models `URL.createObjectURL(file)`: an opaque blob locator for the file. -/
def objectURL (f : JSFile) : String :=
  "blob:" ++ f.name

/-- Embedding of `handleFileSelect`: given the current state and the
(optional) selected file, returns the next state and the list of external
actions performed. A non-image MIME type or a size above 5 MiB sets a
status message and returns without touching the selection or preview;
an accepted file becomes the selection, gets a preview URL and clears the
status. -/
def handleFileSelect (s : UploadState) (file? : Option JSFile) :
    UploadState × List Action :=
  match file? with
  | none => (s, [])
  | some file =>
    if ¬ mimeIsImage file.type then
      ({ s with uploadStatus := "Please select an image file" }, [])
    else if file.size > 5 * 1024 * 1024 then
      ({ s with uploadStatus := "File size must be less than 5MB" }, [])
    else
      ({ s with selectedFile := some file,
                previewUrl := objectURL file,
                uploadStatus := "" },
       [Action.createObjectUrl file])

/-- Models `selectedFile.name.split('.').pop()`. -/
def fileExtension (name : String) : String :=
  (name.splitOn ".").getLastD ""

/-- Result of one `handleUpload` invocation: the final component state, the
ordered external actions performed, every status string set during the run
(in order), and the scheduled deferred status update (delay in
milliseconds, status value), if any. -/
structure UploadOutcome where
  state : UploadState
  actions : List Action
  statuses : List String
  timer : Option (ℕ × String)
  deriving Repr, DecidableEq

/-- Embedding of `handleUpload`. The asynchronous collaborators are passed
as oracles: `loc` is the `getCurrentLocation` result (error value is the
thrown message), `uploadErr` the storage upload error if any, `publicUrl`
the resolved public URL, `dbErr` the insert error if any; `now` and `rand`
stand for `Date.now()` and the random suffix used in the storage key. -/
def handleUpload (s : UploadState) (loc : Except String GeoLocation)
    (uploadErr : Option String) (publicUrl : String) (dbErr : Option String)
    (now : ℕ) (rand : String) : UploadOutcome :=
  match s.selectedFile with
  | none =>
      { state := { s with uploadStatus := "Please select a photo first" },
        actions := [],
        statuses := ["Please select a photo first"],
        timer := none }
  | some file =>
    match loc with
    | .error msg =>
        { state := { s with isUploading := false, uploadStatus := msg },
          actions := [.getLocation],
          statuses := ["Getting your location...", msg],
          timer := none }
    | .ok location =>
      let fileExt := fileExtension file.name
      let fileName := toString now ++ "-" ++ rand ++ "." ++ fileExt
      let filePath := "photos/" ++ fileName
      match uploadErr with
      | some m =>
          { state := { s with isUploading := false,
                              uploadStatus := "Upload failed: " ++ m },
            actions := [.getLocation, .storageUpload filePath],
            statuses := ["Getting your location...", "Uploading photo...",
                         "Upload failed: " ++ m],
            timer := none }
      | none =>
        let reportData : CreateWasteReport :=
          { latitude := location.latitude, longitude := location.longitude,
            photo_url := publicUrl }
        match dbErr with
        | some m =>
            { state := { s with isUploading := false,
                                uploadStatus := "Database error: " ++ m },
              actions := [.getLocation, .storageUpload filePath,
                          .getPublicUrl filePath, .dbInsert reportData],
              statuses := ["Getting your location...", "Uploading photo...",
                           "Saving report...", "Database error: " ++ m],
              timer := none }
        | none =>
            { state := { s with isUploading := false,
                                uploadStatus := "Report submitted successfully!",
                                selectedFile := none, previewUrl := "" },
              actions := [.getLocation, .storageUpload filePath,
                          .getPublicUrl filePath, .dbInsert reportData,
                          .notifyParent],
              statuses := ["Getting your location...", "Uploading photo...",
                           "Saving report...", "Report submitted successfully!"],
              timer := some (3000, "") }

/-- Fires a scheduled `setTimeout` status update, if one was scheduled. -/
def applyTimer (s : UploadState) (timer : Option (ℕ × String)) : UploadState :=
  match timer with
  | some (_, msg) => { s with uploadStatus := msg }
  | none => s

/-- The `Home` page state hooks: `reports`, `selectedReport`, `isModalOpen`,
`isLoading`, `error`. -/
structure HomeState where
  reports : List WasteReport
  selectedReport : Option WasteReport
  isModalOpen : Bool
  isLoading : Bool
  error : String
  deriving Repr, DecidableEq

/-- Initial `Home` state before the first fetch. -/
def initialHomeState : HomeState :=
  { reports := [], selectedReport := none, isModalOpen := false,
    isLoading := true, error := "" }

/-- Comparison used by the bulk query `order('created_at', ascending false)`:
most recent first. -/
def createdAtDesc (a b : WasteReport) : Bool :=
  decide (b.created_at ≤ a.created_at)

/-- The bulk read the query describes: all rows ordered by `created_at`
descending. -/
def bulkFetch (rows : List WasteReport) : List WasteReport :=
  rows.mergeSort createdAtDesc

/-- Embedding of `fetchReports`: the query outcome is passed as an oracle.
On success the collection is replaced wholesale with the returned data
(`data || []` maps a null payload to the empty list) and the error is
cleared; on failure the error message is set and the collection is left
untouched. Either way loading ends. -/
def fetchReports (s : HomeState)
    (result : Except String (Option (List WasteReport))) : HomeState :=
  match result with
  | .error _ => { s with error := "Failed to load reports", isLoading := false }
  | .ok data => { s with error := "", reports := data.getD [],
                         isLoading := false }

/-- Embedding of the `postgres_changes` INSERT handler in `Home`: the new
report is prepended to the current collection. -/
def handleInsertEvent (s : HomeState) (payload : WasteReport) : HomeState :=
  { s with reports := payload :: s.reports }

/-- Collection after a sequence of streamed insert events is applied, in
delivery order, to an initial collection: each event is prepended. -/
def applyInsertEvents (fetched : List WasteReport)
    (events : List WasteReport) : List WasteReport :=
  events.foldl (fun cur e => e :: cur) fetched

/-- Embedding of `handleReportClick` in `Home`: record the selection and
open the detail modal. -/
def handleReportClick (s : HomeState) (report : WasteReport) : HomeState :=
  { s with selectedReport := some report, isModalOpen := true }

/-- Embedding of the `HeatmapLayer` `onClick` callback as wired by `Home`:
`info` is the picking result. With a picked object the report-click
handler runs and the event is marked handled (`true`); with no object
nothing happens and the event propagates (`false`). -/
def heatmapOnClick (info : Option WasteReport) (s : HomeState) :
    HomeState × Bool :=
  match info with
  | some r => (handleReportClick s r, true)
  | none => (s, false)

/-- Decimal digit character for `d % 10`. -/
def digitChar (d : ℕ) : Char :=
  Char.ofNat (48 + d % 10)

/-- The six decimal digits of `n % 1000000`, most significant first. -/
def sixDigits (n : ℕ) : String :=
  String.mk [digitChar (n / 100000), digitChar (n / 10000),
             digitChar (n / 1000), digitChar (n / 100),
             digitChar (n / 10), digitChar n]

/-- Embedding of `x.toFixed(6)` on rationals, following the ECMAScript
definition: the sign is split off, the magnitude is scaled by `10^6` and
rounded to the nearest integer (ties toward the larger), and the result is
printed with exactly six fractional digits. -/
def toFixed6 (x : ℚ) : String :=
  let sign := if x < 0 then "-" else ""
  let n : ℕ := (Int.floor (|x| * 1000000 + 1/2)).toNat
  sign ++ toString (n / 1000000) ++ "." ++ sixDigits (n % 1000000)

/-- Embedding of `formatCoordinates` in `ReportModal`. -/
def formatCoordinates (lat lng : ℚ) : String :=
  toFixed6 lat ++ ", " ++ toFixed6 lng

/-- Fractional decimal digits of `x` (with `0 ≤ x < 1`), emitted until the
remainder is zero or the fuel runs out. -/
def fracDigits : ℕ → ℚ → String
  | 0, _ => ""
  | fuel + 1, x =>
    if x = 0 then ""
    else
      let d : ℕ := (Int.floor (x * 10)).toNat
      String.singleton (digitChar d) ++ fracDigits fuel (x * 10 - d)

/-- Decimal rendering of a rational, modelling the default number-to-string
interpolation used in the maps URL. -/
def ratToString (q : ℚ) : String :=
  let sign := if q < 0 then "-" else ""
  let a := |q|
  let ip : ℕ := (Int.floor a).toNat
  let fp := a - ip
  if fp = 0 then sign ++ toString ip
  else sign ++ toString ip ++ "." ++ fracDigits a.den fp

/-- A `window.open` call: target URL and browsing-context name. -/
structure WindowOpen where
  url : String
  target : String
  deriving Repr, DecidableEq

/-- Embedding of `openInMaps` in `ReportModal`: builds the Google Maps
query URL from the report coordinates and opens it in a new context. -/
def openInMaps (report : WasteReport) : WindowOpen :=
  { url := "https://www.google.com/maps?q=" ++ ratToString report.latitude
             ++ "," ++ ratToString report.longitude,
    target := "_blank" }

/-- What the report modal renders when it renders at all. -/
structure ModalView where
  report : WasteReport
  coordinatesText : String
  photoUrl : String
  reportId : String
  mapsLink : WindowOpen
  deriving Repr, DecidableEq

/-- Embedding of `ReportModal`: with `isOpen` false or no report it renders
nothing; otherwise it renders the report with its derived display data. -/
def reportModal (report? : Option WasteReport) (isOpen : Bool) :
    Option ModalView :=
  if isOpen then
    match report? with
    | some r =>
        some { report := r,
               coordinatesText := formatCoordinates r.latitude r.longitude,
               photoUrl := r.photo_url,
               reportId := r.id,
               mapsLink := openInMaps r }
    | none => none
  else none

/-! Helper lemmas shared by the claim theorems. -/

/-- Folding the prepend step of the insert handler over the event list
yields the reversed event list in front of the initial collection. -/
theorem applyInsertEvents_eq (fetched events : List WasteReport) :
    applyInsertEvents fetched events = events.reverse ++ fetched := by
  induction events generalizing fetched with
  | nil => rfl
  | cons e es ih =>
      show applyInsertEvents (e :: fetched) es = (e :: es).reverse ++ fetched
      rw [ih]
      simp

/-- The six-digit block always has length six. -/
theorem sixDigits_length (n : ℕ) : (sixDigits n).length = 6 := rfl

/-- Digit characters are decimal digits. -/
theorem digitChar_isDigit (d : ℕ) : (digitChar d).isDigit = true := by
  have h : d % 10 < 10 := Nat.mod_lt _ (by norm_num)
  unfold digitChar
  set k := d % 10 with hk
  interval_cases k <;> decide

/-- Every character of the six-digit block is a decimal digit. -/
theorem sixDigits_all_digits (n : ℕ) :
    (sixDigits n).data.all Char.isDigit = true := by
  simp [sixDigits, digitChar_isDigit]

/-- The comparison used by the bulk query is transitive. -/
theorem createdAtDesc_trans (a b c : WasteReport) :
    createdAtDesc a b → createdAtDesc b c → createdAtDesc a c := by
  simp only [createdAtDesc, decide_eq_true_eq]
  omega

/-- The comparison used by the bulk query is total. -/
theorem createdAtDesc_total (a b : WasteReport) :
    createdAtDesc a b || createdAtDesc b a := by
  simp only [createdAtDesc]
  rcases Nat.le_total b.created_at a.created_at with h | h <;> simp [h]

/-- The bulk fetch result is sorted most-recent-first by `created_at`. -/
theorem bulkFetch_sorted (rows : List WasteReport) :
    List.Sorted (fun a b => b.created_at ≤ a.created_at) (bulkFetch rows) := by
  have h := List.sorted_mergeSort createdAtDesc_trans createdAtDesc_total rows
  refine h.imp ?_
  intro a b hab
  simpa [createdAtDesc] using hab

/-- A `toFixed(6)` rendering always decomposes as some integer part, a
dot, and a block of exactly six decimal digits. -/
theorem toFixed6_shape (x : ℚ) :
    ∃ p q, toFixed6 x = p ++ "." ++ q ∧ q.length = 6 ∧
      q.data.all Char.isDigit = true := by
  refine ⟨(if x < 0 then "-" else "") ++
      toString ((Int.floor (|x| * 1000000 + 1/2)).toNat / 1000000),
    sixDigits ((Int.floor (|x| * 1000000 + 1/2)).toNat % 1000000),
    rfl, sixDigits_length _, sixDigits_all_digits _⟩

/-! Claim theorems. -/

/-- A report used as the concrete input of the C1 counterexample. -/
def cexReport : WasteReport :=
  { id := "a", latitude := 1, longitude := 2, photo_url := "u", created_at := 5 }

/-- C1 counterexample: with bulk-fetch result `[cexReport]` and a streamed
insert event carrying the same `id`, the insert handler prepends the event
anyway, so the collection holds the id twice — the claimed dedup guard
(each unique id exactly once, duplicates discarded) fails on the code. -/
theorem claim_C1_counterexample :
    applyInsertEvents [cexReport] [cexReport] = [cexReport, cexReport] ∧
    (applyInsertEvents [cexReport] [cexReport]).countP
        (fun r => r.id == "a") ≠ 1 := by
  constructor
  · rfl
  · decide

/-- C1 (amended): the Home insert handler prepends every streamed insert
unconditionally, with no duplicate-id guard: the final collection is the
event sequence in reverse delivery order in front of the bulk result, and
occurrences add up — an id present in both sources, or delivered twice,
appears once per occurrence rather than exactly once. -/
theorem claim_C1_amended (fetched events : List WasteReport)
    (p : WasteReport → Bool) :
    applyInsertEvents fetched events = events.reverse ++ fetched ∧
    (applyInsertEvents fetched events).countP p =
      events.countP p + fetched.countP p := by
  refine ⟨applyInsertEvents_eq fetched events, ?_⟩
  rw [applyInsertEvents_eq fetched events, List.countP_append,
      List.countP_reverse]

/-- C2: a selected file whose MIME type is not an image type gets the
type-specific status, an image file larger than 5 MiB gets the
size-specific status; in both cases the handler performs no external
action at all (in particular no location acquisition and no network call)
and changes nothing but the status message, so the file is not accepted as
the selection; the two reasons are distinct. -/
theorem claim_C2_validation (s : UploadState) (f : JSFile) :
    (mimeIsImage f.type = false →
        handleFileSelect s (some f) =
          ({ s with uploadStatus := "Please select an image file" }, [])) ∧
    (mimeIsImage f.type = true → 5 * 1024 * 1024 < f.size →
        handleFileSelect s (some f) =
          ({ s with uploadStatus := "File size must be less than 5MB" }, [])) ∧
    ((mimeIsImage f.type = false ∨ 5 * 1024 * 1024 < f.size) →
        ∀ a ∈ (handleFileSelect s (some f)).2,
          a.isLocation = false ∧ a.isNetwork = false) ∧
    ("Please select an image file" : String) ≠
      "File size must be less than 5MB" := by
  refine ⟨?_, ?_, ?_, by decide⟩
  · intro h
    simp [handleFileSelect, h]
  · intro h hs
    simp [handleFileSelect, h, hs]
  · intro h a ha
    rcases h with h | h
    · simp [handleFileSelect, h] at ha
    · by_cases hi : mimeIsImage f.type
      · simp [handleFileSelect, hi, h] at ha
      · simp [handleFileSelect, hi] at ha

/-- C2 witness: a `text/plain` file is rejected with the type reason and a
6 MiB image with the size reason, with no actions performed. -/
theorem claim_C2_validation_witness :
    handleFileSelect initialUploadState
        (some { name := "notes.txt", type := "text/plain", size := 10 }) =
      ({ initialUploadState with
          uploadStatus := "Please select an image file" }, []) ∧
    handleFileSelect initialUploadState
        (some { name := "big.png", type := "image/png",
                size := 6 * 1024 * 1024 }) =
      ({ initialUploadState with
          uploadStatus := "File size must be less than 5MB" }, []) :=
  ⟨(claim_C2_validation initialUploadState
      { name := "notes.txt", type := "text/plain", size := 10 }).1 (by decide),
   (claim_C2_validation initialUploadState
      { name := "big.png", type := "image/png",
        size := 6 * 1024 * 1024 }).2.1 (by decide) (by norm_num)⟩

/-- C3: if location acquisition succeeds and the storage upload fails, the
status becomes the upload-error message carrying the backend message, the
status history ends at that failure, and no database insert action is
performed in that attempt. -/
theorem claim_C3_upload_error (s : UploadState) (file : JSFile)
    (location : GeoLocation) (m publicUrl rand : String)
    (dbErr : Option String) (now : ℕ)
    (hf : s.selectedFile = some file) :
    (handleUpload s (.ok location) (some m) publicUrl dbErr now
        rand).state.uploadStatus = "Upload failed: " ++ m ∧
    (handleUpload s (.ok location) (some m) publicUrl dbErr now
        rand).statuses =
      ["Getting your location...", "Uploading photo...",
       "Upload failed: " ++ m] ∧
    ∀ r, Action.dbInsert r ∉
      (handleUpload s (.ok location) (some m) publicUrl dbErr now
        rand).actions := by
  refine ⟨?_, ?_, ?_⟩ <;> simp [handleUpload, hf]

/-- C3 witness: concrete failing upload after a successful location fix. -/
theorem claim_C3_upload_error_witness :
    (handleUpload
        { isUploading := false, uploadStatus := "",
          selectedFile := some { name := "a.png", type := "image/png", size := 3 },
          previewUrl := "" }
        (.ok { latitude := 1, longitude := 2 }) (some "boom") "url" none 7
        "zz").state.uploadStatus = "Upload failed: boom" ∧
    (handleUpload
        { isUploading := false, uploadStatus := "",
          selectedFile := some { name := "a.png", type := "image/png", size := 3 },
          previewUrl := "" }
        (.ok { latitude := 1, longitude := 2 }) (some "boom") "url" none 7
        "zz").statuses =
      ["Getting your location...", "Uploading photo...",
       "Upload failed: boom"] ∧
    ∀ r, Action.dbInsert r ∉
      (handleUpload
        { isUploading := false, uploadStatus := "",
          selectedFile := some { name := "a.png", type := "image/png", size := 3 },
          previewUrl := "" }
        (.ok { latitude := 1, longitude := 2 }) (some "boom") "url" none 7
        "zz").actions :=
  claim_C3_upload_error _ _ _ _ _ _ _ _ rfl

/-- C4: on a fully successful attempt the status passes through exactly
the ordered sequence locating, uploading-photo, saving-report, success,
a deferred clear is scheduled with a fixed 3000 ms delay, and firing it
returns the status to the empty (idle) value with no user action. -/
theorem claim_C4_success_flow (s : UploadState) (file : JSFile)
    (location : GeoLocation) (publicUrl rand : String) (now : ℕ)
    (hf : s.selectedFile = some file) :
    (handleUpload s (.ok location) none publicUrl none now rand).statuses =
      ["Getting your location...", "Uploading photo...", "Saving report...",
       "Report submitted successfully!"] ∧
    (handleUpload s (.ok location) none publicUrl none now rand).timer =
      some (3000, "") ∧
    (applyTimer
        (handleUpload s (.ok location) none publicUrl none now rand).state
        (handleUpload s (.ok location) none publicUrl none now
          rand).timer).uploadStatus = "" := by
  refine ⟨?_, ?_, ?_⟩ <;> simp [handleUpload, applyTimer, hf]

/-- C4 witness: concrete fully successful upload attempt. -/
theorem claim_C4_success_flow_witness :
    (handleUpload
        { isUploading := false, uploadStatus := "",
          selectedFile := some { name := "b.jpg", type := "image/jpeg", size := 9 },
          previewUrl := "p" }
        (.ok { latitude := 3, longitude := 4 }) none "public-url" none 11
        "rr").statuses =
      ["Getting your location...", "Uploading photo...", "Saving report...",
       "Report submitted successfully!"] ∧
    (handleUpload
        { isUploading := false, uploadStatus := "",
          selectedFile := some { name := "b.jpg", type := "image/jpeg", size := 9 },
          previewUrl := "p" }
        (.ok { latitude := 3, longitude := 4 }) none "public-url" none 11
        "rr").timer = some (3000, "") ∧
    (applyTimer
        (handleUpload
          { isUploading := false, uploadStatus := "",
            selectedFile := some { name := "b.jpg", type := "image/jpeg", size := 9 },
            previewUrl := "p" }
          (.ok { latitude := 3, longitude := 4 }) none "public-url" none 11
          "rr").state
        (handleUpload
          { isUploading := false, uploadStatus := "",
            selectedFile := some { name := "b.jpg", type := "image/jpeg", size := 9 },
            previewUrl := "p" }
          (.ok { latitude := 3, longitude := 4 }) none "public-url" none 11
          "rr").timer).uploadStatus = "" :=
  claim_C4_success_flow _ _ _ _ _ _ rfl

/-- C5: starting from a state whose collection is empty (as it is at
mount, when the bulk fetch runs), a failed fetch leaves the collection
empty, surfaces a nonempty error message — distinguishable from a
successful empty fetch, which leaves the error empty — and a retry by
re-invoking the fetch that then succeeds replaces the collection wholesale
with the fetched data and clears the error. -/
theorem claim_C5_fetch_failure (s : HomeState) (e : String)
    (data : List WasteReport) (h : s.reports = []) :
    (fetchReports s (.error e)).reports = [] ∧
    (fetchReports s (.error e)).error = "Failed to load reports" ∧
    (fetchReports s (.error e)).error ≠ "" ∧
    (fetchReports s (.ok (some []))).error = "" ∧
    (fetchReports (fetchReports s (.error e)) (.ok (some data))).reports =
      data ∧
    (fetchReports (fetchReports s (.error e)) (.ok (some data))).error =
      "" ∧
    (fetchReports s (.ok (some data))).reports = data := by
  refine ⟨?_, rfl, ?_, rfl, rfl, rfl, rfl⟩
  · simp [fetchReports, h]
  · show ("Failed to load reports" : String) ≠ ""
    decide

/-- C5 witness: concrete failed fetch from the initial state followed by a
successful retry. -/
theorem claim_C5_fetch_failure_witness :
    (fetchReports initialHomeState (.error "net down")).reports = [] ∧
    (fetchReports initialHomeState (.error "net down")).error =
      "Failed to load reports" ∧
    (fetchReports initialHomeState (.error "net down")).error ≠ "" ∧
    (fetchReports initialHomeState (.ok (some []))).error = "" ∧
    (fetchReports (fetchReports initialHomeState (.error "net down"))
        (.ok (some [{ id := "w5", latitude := 0, longitude := 0,
                      photo_url := "p", created_at := 1 }]))).reports =
      [{ id := "w5", latitude := 0, longitude := 0, photo_url := "p",
         created_at := 1 }] ∧
    (fetchReports (fetchReports initialHomeState (.error "net down"))
        (.ok (some [{ id := "w5", latitude := 0, longitude := 0,
                      photo_url := "p", created_at := 1 }]))).error = "" ∧
    (fetchReports initialHomeState
        (.ok (some [{ id := "w5", latitude := 0, longitude := 0,
                      photo_url := "p", created_at := 1 }]))).reports =
      [{ id := "w5", latitude := 0, longitude := 0, photo_url := "p",
         created_at := 1 }] :=
  claim_C5_fetch_failure initialHomeState "net down" _ rfl

/-- C6: the bulk query result is ordered most-recent-first by `created_at`
(descending) and is stored as-is by a successful fetch; the insert handler
prepends each streamed event to the front; the collection after a sequence
of events is the streamed arrivals in reverse delivery order followed by
the bulk result. -/
theorem claim_C6_ordering (rows events : List WasteReport) (s : HomeState) :
    List.Sorted (fun a b => b.created_at ≤ a.created_at) (bulkFetch rows) ∧
    (fetchReports s (.ok (some (bulkFetch rows)))).reports =
      bulkFetch rows ∧
    (∀ r, (handleInsertEvent s r).reports = r :: s.reports) ∧
    applyInsertEvents (bulkFetch rows) events =
      events.reverse ++ bulkFetch rows :=
  ⟨bulkFetch_sorted rows, rfl, fun _ => rfl,
   applyInsertEvents_eq (bulkFetch rows) events⟩

/-- C7: a map click whose picking result carries no report leaves the Home
state unchanged (no selection event, modal state untouched) and reports
the event as unhandled; a click that picks a report marks the event
handled, selects exactly that report, opens the modal, and the modal then
renders exactly that report. -/
theorem claim_C7_click (s : HomeState) (r : WasteReport) :
    heatmapOnClick none s = (s, false) ∧
    (heatmapOnClick (some r) s).2 = true ∧
    (heatmapOnClick (some r) s).1.selectedReport = some r ∧
    (heatmapOnClick (some r) s).1.isModalOpen = true ∧
    (reportModal (heatmapOnClick (some r) s).1.selectedReport
        (heatmapOnClick (some r) s).1.isModalOpen).map ModalView.report =
      some r :=
  ⟨rfl, rfl, rfl, rfl, rfl⟩

/-- C8: the modal coordinate text joins the two `toFixed(6)` renderings,
each of which ends in a dot followed by exactly six decimal digits, and
the Open-in-Maps action builds exactly the URL
`https://www.google.com/maps?q=<lat>,<lng>` from the report coordinates,
opened in the `_blank` (new) browsing context. -/
theorem claim_C8_modal_presentation (r : WasteReport) :
    (∃ p q, toFixed6 r.latitude = p ++ "." ++ q ∧ q.length = 6 ∧
        q.data.all Char.isDigit = true) ∧
    (∃ p q, toFixed6 r.longitude = p ++ "." ++ q ∧ q.length = 6 ∧
        q.data.all Char.isDigit = true) ∧
    formatCoordinates r.latitude r.longitude =
      toFixed6 r.latitude ++ ", " ++ toFixed6 r.longitude ∧
    (reportModal (some r) true).map ModalView.coordinatesText =
      some (formatCoordinates r.latitude r.longitude) ∧
    openInMaps r =
      { url := "https://www.google.com/maps?q=" ++ ratToString r.latitude
                 ++ "," ++ ratToString r.longitude,
        target := "_blank" } :=
  ⟨toFixed6_shape r.latitude, toFixed6_shape r.longitude, rfl, rfl, rfl⟩

/-- C9: a selection that fails validation (non-image MIME type, or an
image above 5 MiB) leaves the previously selected file and its preview
URL untouched; only the status message changes. -/
theorem claim_C9_invalid_frame (s : UploadState) (f : JSFile)
    (h : mimeIsImage f.type = false ∨ 5 * 1024 * 1024 < f.size) :
    (handleFileSelect s (some f)).1.selectedFile = s.selectedFile ∧
    (handleFileSelect s (some f)).1.previewUrl = s.previewUrl := by
  rcases h with h | h
  · simp [handleFileSelect, h]
  · by_cases hi : mimeIsImage f.type
    · simp [handleFileSelect, hi, h]
    · simp [handleFileSelect, hi]

/-- C9 witness: an earlier valid selection survives a later invalid one. -/
theorem claim_C9_invalid_frame_witness :
    (handleFileSelect
        { isUploading := false, uploadStatus := "",
          selectedFile := some { name := "ok.png", type := "image/png", size := 4 },
          previewUrl := "blob:ok.png" }
        (some { name := "nope.txt", type := "text/plain",
                size := 2 })).1.selectedFile =
      some { name := "ok.png", type := "image/png", size := 4 } ∧
    (handleFileSelect
        { isUploading := false, uploadStatus := "",
          selectedFile := some { name := "ok.png", type := "image/png", size := 4 },
          previewUrl := "blob:ok.png" }
        (some { name := "nope.txt", type := "text/plain",
                size := 2 })).1.previewUrl = "blob:ok.png" :=
  claim_C9_invalid_frame _ _ (Or.inl (by decide))

/-- C10: with a null report the modal renders nothing, whatever the value
of its open flag. -/
theorem claim_C10_null_report (isOpen : Bool) :
    reportModal none isOpen = none := by
  cases isOpen <;> rfl

end WasteApp
